import Mathlib

/-!
Verification development for the query-routing and retrieval-aggregation
pipeline of the rag_agent repository (src/rag_agent.py, src/app.py).

The Python code is shallowly embedded: the two external services (the Ragie
retrieval HTTP API and the LLM completion API) are modelled as oracles, and
each embedded method returns its Python result together with a trace of the
API calls it issued.  Python control flow (try/except, truthiness, f-string
rendering of None) is translated explicitly.
-/

namespace RagAgent

/-! ## Python string helpers

`strContains h n` is the Python substring test `n in h`.
`pyLower` is `str.lower()` restricted to ASCII (all strings that occur in the
code are ASCII).  `pyStrip` is `str.strip()` with the ASCII whitespace set.
-/

def strContains (haystack needle : String) : Bool :=
  (List.range (haystack.data.length + 1)).any
    (fun i => needle.data.isPrefixOf (haystack.data.drop i))

def pyLowerChar (c : Char) : Char :=
  if 65 ≤ c.toNat ∧ c.toNat ≤ 90 then Char.ofNat (c.toNat + 32) else c

def pyLower (s : String) : String :=
  ⟨s.data.map pyLowerChar⟩

def isPyWhitespace (c : Char) : Bool :=
  c = ' ' || c = '\t' || c = '\n' || c = '\r' || c = '\x0b' || c = '\x0c'

def pyStrip (s : String) : String :=
  ⟨((s.data.dropWhile isPyWhitespace).reverse.dropWhile isPyWhitespace).reverse⟩

/-! ## Data model of the external interfaces -/

/-- One element of the `scored_chunks` array in a `/retrievals` response:
a text fragment with a relevance score. -/
structure Chunk where
  text : String
  score : Int
deriving Repr, DecidableEq

/-- The JSON body POSTed to `https://api.ragie.ai/retrievals` by
`process_meeting_notes` and `process_client_agreements`: keys `rerank`,
`query`, `top_k` and the folder filter value of
`filter.folder.$eq`. -/
structure RetrievalPayload where
  rerank : Bool
  query : String
  top_k : Nat
  folderEq : String
deriving Repr, DecidableEq

/-- Outcome of one retrieval HTTP request.  `transportError` covers a
RequestException, a `raise_for_status` HTTPError, a JSON parse failure and a
chunk record without a `text` key: the Python code catches all of these with
the same `except` arms and returns None.  `ok body` is a parsed JSON object;
`body = Option.none` models a JSON object without a `scored_chunks` key, which
`output.get` defaults to the empty list. -/
inductive HTTPResult where
  | transportError
  | ok (scored_chunks : Option (List Chunk))
deriving Repr, DecidableEq

/-- Outcome of one `llm.invoke(prompt)` call: either an exception
(`failure`) or a message whose `content` attribute is a string. -/
inductive CompletionResult where
  | failure
  | message (content : String)
deriving Repr, DecidableEq

/-- The two external services, as oracles from request to response. -/
structure Oracles where
  retrieve : RetrievalPayload → HTTPResult
  complete : String → CompletionResult

/-- Trace of external API calls made by one embedded method:
the retrieval payloads POSTed and the completion prompts sent, in order. -/
structure Trace where
  retrievals : List RetrievalPayload
  completions : List String
deriving Repr, DecidableEq

def Trace.nil : Trace := ⟨[], []⟩

def Trace.append (a b : Trace) : Trace :=
  ⟨a.retrievals ++ b.retrievals, a.completions ++ b.completions⟩

instance : Append Trace := ⟨Trace.append⟩

theorem Trace.append_eq (a b : Trace) :
    a ++ b = ⟨a.retrievals ++ b.retrievals, a.completions ++ b.completions⟩ := rfl

/-- A Python value that is either a string or None: the type of
`meeting_notes_result` / `client_agreements_result` in
`RouterAgent.process_query`, which start as `""` and may be overwritten by
the `Optional[str]` returned by the processing tools. -/
inductive PyVal where
  | s (v : String)
  | none
deriving Repr, DecidableEq

/-- f-string rendering of a `PyVal` (Python renders None as "None"). -/
def pyStr : PyVal → String
  | .s v => v
  | .none => "None"

def pyOfOption : Option String → PyVal
  | Option.some v => .s v
  | Option.none => .none

/-- Python exceptions that can escape the embedded methods. -/
inductive PyError where
  | attributeError
  | completionError
deriving Repr, DecidableEq

/-! ## RAGAgent construction (rag_agent.py lines 8-101)

`__init__` reads `st.secrets["RAGIE_API_KEY"]` and
`st.secrets["OPENAI_API_KEY"]` (a missing key raises), raises ValueError when
either is falsy (empty), and otherwise builds the LLM and the agent objects.
Any exception is caught: the handler reports the error via `st.error` and
sets `self.ragie_api_key = None`, leaving the agent attributes
(`intent_determination_agent`, ...) unset. -/

structure Secrets where
  RAGIE_API_KEY : Option String
  OPENAI_API_KEY : Option String
deriving Repr, DecidableEq

/-- Observable state of a `RAGAgent` object after `__init__`:
`agentsBuilt` records whether the agent attributes exist,
`errorReported` whether the except-handler ran `st.error`,
`last_query` the attribute set by `_route_query`. -/
structure AgentState where
  ragie_api_key : Option String
  openai_api_key : Option String
  agentsBuilt : Bool
  errorReported : Bool
  last_query : Option String
deriving Repr, DecidableEq

def RAGAgent.init (secrets : Secrets) : AgentState :=
  match secrets.RAGIE_API_KEY, secrets.OPENAI_API_KEY with
  | Option.some r, Option.some k =>
      if r = "" ∨ k = "" then
        ⟨Option.none, Option.some k, false, true, Option.none⟩
      else
        ⟨Option.some r, Option.some k, true, false, Option.none⟩
  | _, _ => ⟨Option.none, Option.none, false, true, Option.none⟩

/-! ## Retrieval sub-queries (rag_agent.py lines 346-424) -/

def meetingPayload (query : String) : RetrievalPayload :=
  ⟨true, query, 8, "test_meetings"⟩

def agreementPayload (query : String) : RetrievalPayload :=
  ⟨true, query, 8, "test_client_agreements"⟩

/-- Embedding of `RAGAgent.process_meeting_notes` (lines 346-384): POSTs the
payload with the `test_meetings` folder filter; on a parsed response joins the
chunk texts with a newline; on any exception returns None. -/
def process_meeting_notes (o : Oracles) (query : String) : Option String × Trace :=
  let payload := meetingPayload query
  let result : Option String :=
    match o.retrieve payload with
    | .transportError => Option.none
    | .ok body =>
        let scored_chunks := body.getD []
        let relevant_texts := scored_chunks.map Chunk.text
        Option.some (String.intercalate "\n" relevant_texts)
  (result, ⟨[payload], []⟩)

/-- Embedding of `RAGAgent.process_client_agreements` (lines 386-424): POSTs
the payload with the `test_client_agreements` folder filter; on a parsed
response joins the chunk texts with a newline; on any exception returns
None. -/
def process_client_agreements (o : Oracles) (query : String) : Option String × Trace :=
  let payload := agreementPayload query
  let result : Option String :=
    match o.retrieve payload with
    | .transportError => Option.none
    | .ok body =>
        let scored_chunks := body.getD []
        let relevant_texts := scored_chunks.map Chunk.text
        Option.some (String.intercalate "\n" relevant_texts)
  (result, ⟨[payload], []⟩)

/-! ## Intent determination (rag_agent.py lines 293-328) -/

def intentPrompt (query : String) : String :=
  "Determine the intent of the following query. Is it related to meeting notes, \n                client agreements, or both? Provide a clear answer: " ++ query

/-- Embedding of `RAGAgent.determine_intent` (lines 293-328): sends the
intent prompt, lower-cases the stripped response content, fires the
processing tools whose markers occur as substrings (results discarded), and
returns the raw intent string.  On an exception from the completion call it
returns the fixed string "Error determining intent". -/
def determine_intent (o : Oracles) (query : String) : String × Trace :=
  let prompt := intentPrompt query
  match o.complete prompt with
  | .failure => ("Error determining intent", ⟨[], [prompt]⟩)
  | .message content =>
      let intent := pyLower (pyStrip content)
      let t1 := if strContains intent "meeting notes" then
          (process_meeting_notes o query).2 else Trace.nil
      let t2 := if strContains intent "client agreements" then
          (process_client_agreements o query).2 else Trace.nil
      let t3 := if strContains intent "both" || strContains intent "unclear" then
          (process_meeting_notes o query).2 ++ (process_client_agreements o query).2
        else Trace.nil
      (intent, (⟨[], [prompt]⟩ : Trace) ++ t1 ++ t2 ++ t3)

/-! ## Summarization (rag_agent.py lines 434-440) -/

def summarizePrompt (meeting_notes client_agreements : PyVal) : String :=
  "Summarize the following information into a concise and useful output: " ++
    "Meeting Notes:\n" ++ pyStr meeting_notes ++ "\n\nClient Agreements:\n" ++
    pyStr client_agreements

/-- Embedding of `RAGAgent.summarize_information` (lines 434-440): builds the
combined text, sends one completion prompt and returns its result.  There is
no try/except in this method, so a completion failure propagates as an
exception. -/
def summarize_information (o : Oracles) (meeting_notes client_agreements : PyVal) :
    Except PyError String × Trace :=
  let prompt := summarizePrompt meeting_notes client_agreements
  match o.complete prompt with
  | .failure => (.error .completionError, ⟨[], [prompt]⟩)
  | .message c => (.ok c, ⟨[], [prompt]⟩)

/-! ## RouterAgent.process_query (rag_agent.py lines 442-468) -/

/-- Embedding of `RouterAgent.process_query` (lines 446-468).  When the
RAGAgent construction failed, the very first attribute access
`intent_determination_agent` raises AttributeError (uncaught).  Otherwise:
determine the intent, conditionally run the two processing tools on the
substring markers, and always summarize. -/
def process_query (st : AgentState) (o : Oracles) (query : String) :
    Except PyError String × Trace :=
  if st.agentsBuilt then
    let di := determine_intent o query
    let mn : PyVal × Trace :=
      if strContains di.1 "meeting notes" then
        let r := process_meeting_notes o query
        (pyOfOption r.1, r.2)
      else (PyVal.s "", Trace.nil)
    let ca : PyVal × Trace :=
      if strContains di.1 "client agreements" then
        let r := process_client_agreements o query
        (pyOfOption r.1, r.2)
      else (PyVal.s "", Trace.nil)
    let su := summarize_information o mn.1 ca.1
    (su.1, di.2 ++ mn.2 ++ ca.2 ++ su.2)
  else (.error .attributeError, Trace.nil)

/-! ## _route_query and the app dispatch (rag_agent.py 134-149, app.py 49-62) -/

/-- Embedding of `RAGAgent._route_query` (lines 134-149): stores the query in
`self.last_query` and returns it.  No statement in the try block can raise,
so the except arm (which would return "") is dead. -/
def route_query (st : AgentState) (query : String) : AgentState × String :=
  (⟨st.ragie_api_key, st.openai_api_key, st.agentsBuilt,
    st.errorReported, Option.some query⟩, query)

/-- The branch taken by the Submit Query handler in app.py (lines 52-62). -/
inductive UIRoute where
  | meetingTranscripts
  | clientAgreements
  | bothCategories
  | notRecognizedWarning
deriving Repr, DecidableEq

def appDispatch (category : String) : UIRoute :=
  if category = "test_meeting" then .meetingTranscripts
  else if category = "test_client_agreements" then .clientAgreements
  else if category = "both" then .bothCategories
  else .notRecognizedWarning

/-- Embedding of the Submit Query handler in app.py `main` (lines 44-66):
`agent.routing_agent.tools[0].func(user_query)` raises AttributeError when
construction failed; otherwise it is `_route_query`, whose result is
dispatched on. -/
def submitQueryAction (st : AgentState) (query : String) : Except PyError UIRoute :=
  if st.agentsBuilt then .ok (appDispatch (route_query st query).2)
  else .error .attributeError

/-! ## Spec-side category model

The specification describes intent classification as producing a value of a
four-element Category enumeration via substring markers on the lower-cased
response.  These definitions are modelled from the spec wording (not from the
code) and exist only to be compared against the code embedding above. -/

inductive Category where
  | MeetingNotes
  | ClientAgreements
  | Both
  | Unrecognized
deriving Repr, DecidableEq

/-- Modelled from the spec: the classification contract of claim C2 — the
response is lower-cased, "meeting" marks MeetingNotes, "client" or
"agreement" marks ClientAgreements, "both" (or both markers at once) marks
Both, anything else is Unrecognized. -/
def specClassify (resp : String) : Category :=
  let t := pyLower resp
  if strContains t "both" ||
      (strContains t "meeting" && (strContains t "client" || strContains t "agreement")) then
    Category.Both
  else if strContains t "meeting" then Category.MeetingNotes
  else if strContains t "client" || strContains t "agreement" then Category.ClientAgreements
  else Category.Unrecognized

/-! ## Concrete oracles and states used in witnesses and counterexamples -/

def okRetrieve : RetrievalPayload → HTTPResult := fun _ => .ok (Option.some [])

/-- Oracle whose completion API always answers with the fixed text `resp`
and whose retrieval API always succeeds with no chunks. -/
def constOracle (resp : String) : Oracles :=
  ⟨okRetrieve, fun _ => .message resp⟩

/-- Oracle whose completion API always raises. -/
def failCompleteOracle : Oracles :=
  ⟨okRetrieve, fun _ => .failure⟩

/-- Oracle whose retrieval API gives the same response to every request and
whose completion API always raises. -/
def constRetrieve (r : HTTPResult) : Oracles :=
  ⟨fun _ => r, fun _ => CompletionResult.failure⟩

/-- Oracle whose retrieval API always fails with a transport error. -/
def failRetrieveOracle (resp : String) : Oracles :=
  ⟨fun _ => .transportError, fun _ => .message resp⟩

/-- Oracle where the meeting-notes collection query fails with a transport
error while the client-agreements collection query succeeds with one chunk. -/
def splitOracle : Oracles :=
  ⟨fun p => if p.folderEq = "test_meetings" then .transportError
            else .ok (Option.some [⟨"Client agreed", 1⟩]),
   fun _ => .message "both"⟩

def goodSecrets : Secrets := ⟨Option.some "rk-123", Option.some "sk-456"⟩

/-- Agent state after a successful construction. -/
def goodState : AgentState := RAGAgent.init goodSecrets

theorem goodState_built : goodState.agentsBuilt = true := by decide

/-! ## Helper lemmas about the traces of the embedded methods -/

theorem process_meeting_notes_trace (o : Oracles) (q : String) :
    (process_meeting_notes o q).2 = ⟨[meetingPayload q], []⟩ := rfl

theorem process_client_agreements_trace (o : Oracles) (q : String) :
    (process_client_agreements o q).2 = ⟨[agreementPayload q], []⟩ := rfl

theorem summarize_information_trace (o : Oracles) (mn ca : PyVal) :
    (summarize_information o mn ca).2 = ⟨[], [summarizePrompt mn ca]⟩ := by
  cases h : o.complete (summarizePrompt mn ca) <;> simp [summarize_information, h]

theorem determine_intent_failure (o : Oracles) (q : String)
    (h : o.complete (intentPrompt q) = CompletionResult.failure) :
    determine_intent o q = ("Error determining intent", ⟨[], [intentPrompt q]⟩) := by
  simp [determine_intent, h]

theorem determine_intent_message (o : Oracles) (q content : String)
    (h : o.complete (intentPrompt q) = CompletionResult.message content) :
    determine_intent o q =
      (pyLower (pyStrip content),
       ⟨(if strContains (pyLower (pyStrip content)) "meeting notes" then
            [meetingPayload q] else []) ++
        (if strContains (pyLower (pyStrip content)) "client agreements" then
            [agreementPayload q] else []) ++
        (if strContains (pyLower (pyStrip content)) "both" ||
            strContains (pyLower (pyStrip content)) "unclear" then
            [meetingPayload q, agreementPayload q] else []),
        [intentPrompt q]⟩) := by
  simp only [determine_intent, h]
  split_ifs <;>
    simp [Trace.append_eq, Trace.nil, process_meeting_notes_trace,
      process_client_agreements_trace]

theorem determine_intent_retrievals_sub (o : Oracles) (q : String) :
    ∀ p ∈ (determine_intent o q).2.retrievals,
      p = meetingPayload q ∨ p = agreementPayload q := by
  intro p hp
  cases h : o.complete (intentPrompt q) with
  | failure =>
      rw [determine_intent_failure o q h] at hp
      simp at hp
  | message content =>
      rw [determine_intent_message o q content h] at hp
      simp only [List.mem_append] at hp
      rcases hp with (hp | hp) | hp <;> split at hp <;> simp_all

theorem process_query_retrievals (st : AgentState) (o : Oracles) (q : String)
    (hst : st.agentsBuilt = true) :
    (process_query st o q).2.retrievals =
      (determine_intent o q).2.retrievals ++
      (if strContains (determine_intent o q).1 "meeting notes" then
          [meetingPayload q] else []) ++
      (if strContains (determine_intent o q).1 "client agreements" then
          [agreementPayload q] else []) := by
  simp only [process_query, hst, if_true]
  split_ifs <;>
    simp [Trace.append_eq, Trace.nil, process_meeting_notes_trace,
      process_client_agreements_trace, summarize_information_trace]

theorem process_query_retrievals_sub (st : AgentState) (o : Oracles) (q : String) :
    ∀ p ∈ (process_query st o q).2.retrievals,
      p = meetingPayload q ∨ p = agreementPayload q := by
  intro p hp
  by_cases hst : st.agentsBuilt = true
  · rw [process_query_retrievals st o q hst] at hp
    simp only [List.mem_append] at hp
    rcases hp with (hp | hp) | hp
    · exact determine_intent_retrievals_sub o q p hp
    · split at hp <;> simp_all
    · split at hp <;> simp_all
  · simp only [process_query, hst, if_false, Bool.not_eq_true] at hp
    simp [Trace.nil] at hp

/-! ## Claim C1 -/

/-- C1, counterexample.  The claim says that whenever the classified category
is Both or Unrecognized, the retrieval step issues exactly two retrieval
calls and never fewer.  With a completion response of "xyzzy" the spec-side
classifier yields Unrecognized, yet the code (determine_intent finds none of
its substring markers, and process_query finds neither of its two markers)
issues zero retrieval calls. -/
theorem C1_counterexample :
    specClassify "xyzzy" = Category.Unrecognized ∧
    (process_query goodState (constOracle "xyzzy") "q").2.retrievals = [] := by
  constructor <;> decide

/-- C1, amended: when the lower-cased stripped completion response contains
"both" or "unclear" but neither "meeting notes" nor "client agreements",
process_query issues exactly two retrieval calls, one against the
meeting-notes collection and one against the client-agreements collection
(both issued inside determine_intent); responses matching no marker at all
issue zero retrieval calls. -/
theorem C1_both_unclear_two_calls (resp q : String)
    (hb : strContains (pyLower (pyStrip resp)) "both" = true ∨
          strContains (pyLower (pyStrip resp)) "unclear" = true)
    (hm : strContains (pyLower (pyStrip resp)) "meeting notes" = false)
    (hc : strContains (pyLower (pyStrip resp)) "client agreements" = false) :
    (process_query goodState (constOracle resp) q).2.retrievals =
      [meetingPayload q, agreementPayload q] := by
  have hdi := determine_intent_message (constOracle resp) q resp rfl
  rw [process_query_retrievals goodState (constOracle resp) q goodState_built, hdi]
  rcases hb with hb | hb <;> simp [hm, hc, hb]

/-- C1, witness for the amended theorem at the response "both". -/
theorem C1_both_unclear_two_calls_witness :
    (process_query goodState (constOracle "both") "pricing").2.retrievals =
      [meetingPayload "pricing", agreementPayload "pricing"] :=
  C1_both_unclear_two_calls "both" "pricing" (Or.inl (by decide)) (by decide) (by decide)

/-! ## Claim C2 -/

/-- C2, counterexample.  The claim says the classifier maps any response
containing "meeting" to the category MeetingNotes.  For the response
"meeting" the spec-side classifier indeed yields MeetingNotes, but the code
returns the raw string "meeting" (not a category value) and, because its
actual marker is the longer substring "meeting notes", fires no retrieval at
all. -/
theorem C2_counterexample :
    specClassify "meeting" = Category.MeetingNotes ∧
    (determine_intent (constOracle "meeting") "q").1 = "meeting" ∧
    (determine_intent (constOracle "meeting") "q").2.retrievals = [] := by
  refine ⟨by decide, by decide, by decide⟩

/-- C2, amended: determine_intent returns the lower-cased stripped raw
response text, and dispatches by the substrings "meeting notes" (meeting
collection), "client agreements" (agreements collection) and "both" or
"unclear" (both collections); the three tests are independent and
non-exclusive. -/
theorem C2_amended_markers (resp q : String) :
    (determine_intent (constOracle resp) q).1 = pyLower (pyStrip resp) ∧
    (determine_intent (constOracle resp) q).2.retrievals =
      (if strContains (pyLower (pyStrip resp)) "meeting notes" then
          [meetingPayload q] else []) ++
      (if strContains (pyLower (pyStrip resp)) "client agreements" then
          [agreementPayload q] else []) ++
      (if strContains (pyLower (pyStrip resp)) "both" ||
          strContains (pyLower (pyStrip resp)) "unclear" then
          [meetingPayload q, agreementPayload q] else []) := by
  rw [determine_intent_message (constOracle resp) q resp rfl]
  exact ⟨rfl, rfl⟩

/-! ## Claim C3 -/

/-- C3: when a required API key is missing (or empty, which the code also
treats as missing), the constructor reports the initialization error and
leaves the agent attributes unbuilt, and afterwards every process_query call
fails immediately (the first attribute access raises) with zero retrieval
and zero completion calls — query processing is never reached. -/
theorem C3_missing_key_fails_closed (secrets : Secrets)
    (h : secrets.RAGIE_API_KEY = Option.none ∨ secrets.OPENAI_API_KEY = Option.none ∨
         secrets.RAGIE_API_KEY = Option.some "" ∨ secrets.OPENAI_API_KEY = Option.some "")
    (o : Oracles) (q : String) :
    (RAGAgent.init secrets).errorReported = true ∧
    (RAGAgent.init secrets).agentsBuilt = false ∧
    (process_query (RAGAgent.init secrets) o q).1 = Except.error PyError.attributeError ∧
    (process_query (RAGAgent.init secrets) o q).2 = Trace.nil := by
  have hb : (RAGAgent.init secrets).agentsBuilt = false ∧
      (RAGAgent.init secrets).errorReported = true := by
    rcases secrets with ⟨rk, ok⟩
    rcases rk with _ | r
    · simp [RAGAgent.init]
    · rcases ok with _ | k
      · simp [RAGAgent.init]
      · rcases h with h | h | h | h <;> simp_all [RAGAgent.init]
  refine ⟨hb.2, hb.1, ?_, ?_⟩ <;> simp [process_query, hb.1]

/-- C3, witness with the RAGIE key missing. -/
theorem C3_missing_key_fails_closed_witness :
    (RAGAgent.init ⟨Option.none, Option.some "sk-456"⟩).errorReported = true ∧
    (RAGAgent.init ⟨Option.none, Option.some "sk-456"⟩).agentsBuilt = false ∧
    (process_query (RAGAgent.init ⟨Option.none, Option.some "sk-456"⟩)
        (constOracle "both") "q").1 = Except.error PyError.attributeError ∧
    (process_query (RAGAgent.init ⟨Option.none, Option.some "sk-456"⟩)
        (constOracle "both") "q").2 = Trace.nil :=
  C3_missing_key_fails_closed ⟨Option.none, Option.some "sk-456"⟩ (Or.inl rfl)
    (constOracle "both") "q"

/-! ## Claim C4 -/

/-- C4, counterexample.  The claim says that on two empty blocks
summarize_information returns a fixed no-information sentinel and makes zero
completion calls.  In the code it makes exactly one completion call and
returns whatever the model answers. -/
theorem C4_counterexample :
    (summarize_information (constOracle "MODEL OUTPUT") (PyVal.s "") (PyVal.s "")).2.completions.length = 1 ∧
    (summarize_information (constOracle "MODEL OUTPUT") (PyVal.s "") (PyVal.s "")).1 =
      Except.ok "MODEL OUTPUT" :=
  ⟨rfl, rfl⟩

/-- C4, amended: summarize_information always sends exactly one completion
prompt (even when both blocks are empty) and issues no retrieval call; there
is no empty-input sentinel path. -/
theorem C4_always_one_completion_call (o : Oracles) (mn ca : PyVal) :
    (summarize_information o mn ca).2.completions = [summarizePrompt mn ca] ∧
    (summarize_information o mn ca).2.retrievals = [] := by
  cases h : o.complete (summarizePrompt mn ca) <;> simp [summarize_information, h]

/-! ## Claim C5 -/

/-- C5, counterexample.  The claim says a completion failure inside
summarize_information is converted to a fixed sentinel text so the router
still returns a string.  In the code summarize_information has no handler:
with a failing completion API, process_query propagates the exception
instead of returning a string. -/
theorem C5_counterexample :
    (process_query goodState failCompleteOracle "q").1 =
      Except.error PyError.completionError := by
  rfl

/-- C5, amended: when the completion API fails, summarize_information
propagates the error (there is no sentinel), and process_query, which has no
handler either, fails with that same error for every query. -/
theorem C5_completion_error_propagates (o : Oracles) (q : String) (mn ca : PyVal)
    (hAll : ∀ p, o.complete p = CompletionResult.failure) :
    (summarize_information o mn ca).1 = Except.error PyError.completionError ∧
    (process_query goodState o q).1 = Except.error PyError.completionError := by
  have hsum : ∀ a b : PyVal,
      (summarize_information o a b).1 = Except.error PyError.completionError := by
    intro a b
    simp [summarize_information, hAll (summarizePrompt a b)]
  have hdi := determine_intent_failure o q (hAll (intentPrompt q))
  have h1 : strContains "Error determining intent" "meeting notes" = false := by decide
  have h2 : strContains "Error determining intent" "client agreements" = false := by decide
  refine ⟨hsum mn ca, ?_⟩
  simp [process_query, goodState_built, hdi, h1, h2, hsum]

/-- C5, witness for the amended theorem at the all-failing completion
oracle. -/
theorem C5_completion_error_propagates_witness :
    (summarize_information failCompleteOracle (PyVal.s "notes") (PyVal.s "terms")).1 =
      Except.error PyError.completionError ∧
    (process_query goodState failCompleteOracle "q").1 =
      Except.error PyError.completionError :=
  C5_completion_error_propagates failCompleteOracle "q" (PyVal.s "notes") (PyVal.s "terms")
    (fun _ => rfl)

/-! ## Claim C6 -/

/-- C6, counterexample.  The claim says a failing retrieval sub-query yields
an empty RetrievalResult.  In the code it yields None, which is not the
empty result (the empty result is the empty joined string): the two are
distinguishable downstream, where None is rendered as "None" in the
summarization prompt. -/
theorem C6_counterexample :
    (process_meeting_notes (failRetrieveOracle "both") "q").1 = Option.none ∧
    (Option.none : Option String) ≠ Option.some "" :=
  ⟨rfl, by simp⟩

/-- C6, amended: a failing retrieval sub-query returns None (no exception
surfaces past the method), and a failure in one collection does not disturb
the other collection, whose sub-query still returns its own joined chunk
texts. -/
theorem C6_failure_is_none_and_independent (o : Oracles) (q : String) (cs : List Chunk)
    (hm : o.retrieve (meetingPayload q) = HTTPResult.transportError)
    (hc : o.retrieve (agreementPayload q) = HTTPResult.ok (Option.some cs)) :
    (process_meeting_notes o q).1 = Option.none ∧
    (process_client_agreements o q).1 =
      Option.some (String.intercalate "\n" (cs.map Chunk.text)) := by
  constructor <;> simp [process_meeting_notes, process_client_agreements, hm, hc]

/-- C6, witness: the meeting-notes sub-query fails with a transport error
while the client-agreements sub-query succeeds with one chunk. -/
theorem C6_failure_is_none_and_independent_witness :
    (process_meeting_notes splitOracle "q").1 = Option.none ∧
    (process_client_agreements splitOracle "q").1 = Option.some "Client agreed" := by
  have h := C6_failure_is_none_and_independent splitOracle "q" [⟨"Client agreed", 1⟩]
    (by decide) (by decide)
  exact ⟨h.1, h.2.trans (by decide)⟩

/-! ## Claim C7 -/

/-- C7, counterexample.  The claim says the value flowing from intent
classification into retrieval dispatch is always one of four enumerated
Category values.  Five different completion responses produce five pairwise
distinct dispatch values, so the value is not drawn from a four-element
enumeration: it is the raw response string. -/
theorem C7_counterexample :
    ([(determine_intent (constOracle "alpha") "q").1,
      (determine_intent (constOracle "bravo") "q").1,
      (determine_intent (constOracle "charlie") "q").1,
      (determine_intent (constOracle "delta") "q").1,
      (determine_intent (constOracle "echo") "q").1] : List String).Nodup ∧
    ([(determine_intent (constOracle "alpha") "q").1,
      (determine_intent (constOracle "bravo") "q").1,
      (determine_intent (constOracle "charlie") "q").1,
      (determine_intent (constOracle "delta") "q").1,
      (determine_intent (constOracle "echo") "q").1] : List String).length = 5 := by
  constructor <;> decide

/-- C7, amended: the value produced by determine_intent and consumed by
process_query is the raw lower-cased stripped completion response (or the
fixed string "Error determining intent" when the completion call fails), an
unconstrained string matched by substring tests — not an enumerated
category. -/
theorem C7_dispatch_value_raw_string (resp q : String) :
    (determine_intent (constOracle resp) q).1 = pyLower (pyStrip resp) ∧
    (determine_intent failCompleteOracle q).1 = "Error determining intent" := by
  constructor
  · rw [determine_intent_message (constOracle resp) q resp rfl]
  · rw [determine_intent_failure failCompleteOracle q rfl]

/-! ## Claim C8 -/

/-- C8: every retrieval payload POSTed during process_query, whichever
branch produced it and whichever collection it targets, carries
top_k = 8 and rerank = true. -/
theorem C8_every_subquery_topk8_rerank (st : AgentState) (o : Oracles) (q : String)
    (p : RetrievalPayload) (hp : p ∈ (process_query st o q).2.retrievals) :
    p.top_k = 8 ∧ p.rerank = true := by
  rcases process_query_retrievals_sub st o q p hp with h | h <;> subst h <;>
    exact ⟨rfl, rfl⟩

/-- C8, witness at a Both-routed query whose trace contains the
meeting-notes payload. -/
theorem C8_every_subquery_topk8_rerank_witness :
    meetingPayload "hi" ∈ (process_query goodState (constOracle "both") "hi").2.retrievals ∧
    (meetingPayload "hi").top_k = 8 ∧ (meetingPayload "hi").rerank = true :=
  ⟨by decide,
   C8_every_subquery_topk8_rerank goodState (constOracle "both") "hi"
     (meetingPayload "hi") (by decide)⟩

/-! ## Claim C9 -/

/-- C9: on its non-error path the routing tool _route_query returns its
input query unchanged, so the value the app then compares against
"test_meeting", "test_client_agreements" and "both" is the raw user
query. -/
theorem C9_route_query_identity (st : AgentState) (q : String)
    (h : st.agentsBuilt = true) :
    (route_query st q).2 = q ∧
    submitQueryAction st q = Except.ok (appDispatch q) :=
  ⟨rfl, by simp [submitQueryAction, h, route_query]⟩

/-- C9, witness at a successfully constructed agent. -/
theorem C9_route_query_identity_witness :
    (route_query goodState "hello").2 = "hello" ∧
    submitQueryAction goodState "hello" = Except.ok (appDispatch "hello") :=
  C9_route_query_identity goodState "hello" (by decide)

/-! ## Claim C10 -/

/-- C10: process_meeting_notes and process_client_agreements compute the
same function of the retrieval response — for equal responses they return
equal results (the newline-joined chunk texts in response order, None on
failure) — and their request payloads agree on rerank, top_k and query,
differing only in the folder filter. -/
theorem C10_processing_functions_equal (r : HTTPResult) (q : String) :
    (process_meeting_notes (constRetrieve r) q).1 =
      (process_client_agreements (constRetrieve r) q).1 ∧
    (meetingPayload q).rerank = (agreementPayload q).rerank ∧
    (meetingPayload q).top_k = (agreementPayload q).top_k ∧
    (meetingPayload q).query = (agreementPayload q).query ∧
    (meetingPayload q).folderEq ≠ (agreementPayload q).folderEq ∧
    (process_meeting_notes (constRetrieve HTTPResult.transportError) q).1 = Option.none ∧
    (process_client_agreements (constRetrieve HTTPResult.transportError) q).1 = Option.none := by
  refine ⟨?_, rfl, rfl, rfl, show "test_meetings" ≠ "test_client_agreements" by decide,
    rfl, rfl⟩
  cases r <;> rfl

end RagAgent
